import Mathlib

/-!
Verification of the background-orchestration core of the SwasthAI repository
(session state machine, periodic surveillance, follow-up scheduler, job
scheduler) against its natural-language specification.

The Python source is shallowly embedded: Mongo documents become Lean
structures, timestamps become naturals, collections become lists kept in
document (natural) order, fallible external calls (the notifier, the crew
kickoff, Store queries) become explicit `Except`/oracle parameters, and each
operation of the source becomes a pure Lean function on an explicit store
state.
-/

namespace SwasthAI

/-! Data model, from src/database/models.py (only the fields the verified
operations touch). `telegram_id` is `Option String` because the scheduler
reads it with `record.get` and treats a missing value as falsy. -/

structure HealthRecord where
  telegram_id : Option String
  symptoms : List String
  risk_level : String
  severity_score : Nat
  location : Option String
  reported_at : Nat
  requires_followup : Bool
  followup_date : Option Nat
  followup_completed : Bool
  recommendations : List String
  deriving DecidableEq, Repr

/-- Predicate of the Mongo filter in `_find_followups_due`
(src/api/scheduler.py): `requires_followup = true`, `followup_completed =
false`, `followup_date <= now`.  A missing (`null`) `followup_date` does not
match the `lte` comparison, exactly as in MongoDB. -/
def followupDuePred (now : Nat) (r : HealthRecord) : Bool :=
  r.requires_followup && !r.followup_completed &&
    (match r.followup_date with
     | some d => decide (d ≤ now)
     | none => false)

/-- Embedding of `_find_followups_due` (src/api/scheduler.py lines 16-25):
the cursor filters the collection in its natural order and applies
`.limit(limit)`; note the source applies NO sort. Default limit is 50 as in
the source. -/
def findFollowupsDue (store : List HealthRecord) (now : Nat) (limit : Nat := 50) :
    List HealthRecord :=
  (store.filter (followupDuePred now)).take limit

/-- Observable effect of handling one record inside the sweep loop: either a
notification attempt (the `execute_followup_check` call, whose success or
failure the oracle `notifyOk` decides) or the warn-and-continue branch taken
when the record has no truthy `telegram_id`. -/
inductive SweepEffect where
  | notified (chat_id : String) (ok : Bool)
  | skippedMissingId
  deriving DecidableEq, Repr

/-- Truthiness of `record.get("telegram_id")` in Python: `None` and the empty
string are falsy. -/
def resolvedId (r : HealthRecord) : Option String :=
  match r.telegram_id with
  | none => none
  | some id => if id = "" then none else some id

/-- One iteration of the `for record in records` loop of
`run_scheduled_followups`: missing id means warn and continue, otherwise the
notification is attempted (an exception from it is caught and the loop
continues). -/
def followupStep (notifyOk : String → Bool) (r : HealthRecord) : SweepEffect :=
  match resolvedId r with
  | none => SweepEffect.skippedMissingId
  | some id => SweepEffect.notified id (notifyOk id)

/-- Summary type the specification claims the sweep returns. -/
structure SweepSummary where
  dispatched : Nat
  failed : Nat
  deriving DecidableEq, Repr

/-- Result of one sweep run: the health-record store after the run, the trace
of per-record effects, and the value the function returns to its caller. -/
structure SweepOutcome where
  store : List HealthRecord
  effects : List SweepEffect
  summary : Option SweepSummary
  deriving DecidableEq, Repr

/-- Embedding of `run_scheduled_followups` (src/api/scheduler.py lines
50-94).  The source selects the due records with the default limit of 50,
iterates over them attempting one notification each (skipping records
without a truthy `telegram_id`, catching and logging per-record errors), and
then falls off the end: it performs no write whatsoever on the store (in
particular it never sets `followup_completed`) and it returns `None`, hence
`store := store` and `summary := none`. -/
def runScheduledFollowups (notifyOk : String → Bool) (store : List HealthRecord)
    (now : Nat) : SweepOutcome :=
  let records := findFollowupsDue store now 50
  { store := store
    effects := records.map (followupStep notifyOk)
    summary := none }

/-- Decidable check that a record batch is ordered by `followup_date`
ascending (absent dates compare as 0). -/
def sortedByFollowupDate : List HealthRecord → Bool
  | [] => true
  | [_] => true
  | a :: b :: rest =>
      decide (a.followup_date.getD 0 ≤ b.followup_date.getD 0) &&
        sortedByFollowupDate (b :: rest)

/-- Concrete due record used to evaluate the sweep. -/
def sampleDueRecord : HealthRecord :=
  { telegram_id := some "42"
    symptoms := ["fever"]
    risk_level := "high"
    severity_score := 7
    location := some "Pune"
    reported_at := 0
    requires_followup := true
    followup_date := some 0
    followup_completed := false
    recommendations := ["rest"] }

/-- Due record whose `followup_date` is later than `sampleOlderRecord`, yet
stored earlier in the collection. -/
def sampleLaterRecord : HealthRecord :=
  { telegram_id := some "a"
    symptoms := ["cough"]
    risk_level := "low"
    severity_score := 2
    location := none
    reported_at := 0
    requires_followup := true
    followup_date := some 10
    followup_completed := false
    recommendations := [] }

/-- Due record with the oldest `followup_date`, stored after
`sampleLaterRecord`. -/
def sampleOlderRecord : HealthRecord :=
  { telegram_id := some "b"
    symptoms := ["rash"]
    risk_level := "low"
    severity_score := 1
    location := none
    reported_at := 0
    requires_followup := true
    followup_date := some 5
    followup_completed := false
    recommendations := [] }

/-- Due record with no resolvable user identity. -/
def sampleNoIdRecord : HealthRecord :=
  { telegram_id := none
    symptoms := ["nausea"]
    risk_level := "moderate"
    severity_score := 3
    location := none
    reported_at := 0
    requires_followup := true
    followup_date := some 0
    followup_completed := false
    recommendations := [] }

end SwasthAI

namespace SwasthAI

/-- Claim C6: one follow-up sweep run selects exactly the records with
`requires_followup = true`, `followup_completed = false` and
`followup_date <= now`, processes at most `limit` of them (the sweep itself
uses the default 50), and never dispatches a record that fails the
predicate. -/
theorem followup_selection_exact (store : List HealthRecord) (now limit : Nat)
    (notifyOk : String → Bool) :
    (findFollowupsDue store now limit).length ≤ limit
    ∧ (∀ r ∈ findFollowupsDue store now limit, followupDuePred now r = true)
    ∧ (∀ r, followupDuePred now r = true ↔
        (r.requires_followup = true ∧ r.followup_completed = false ∧
          ∃ d, r.followup_date = some d ∧ d ≤ now))
    ∧ (∀ id ok, SweepEffect.notified id ok ∈
          (runScheduledFollowups notifyOk store now).effects →
        ∃ r, r ∈ findFollowupsDue store now 50 ∧ followupDuePred now r = true ∧
          resolvedId r = some id) := by
  refine ⟨?_, ?_, ?_, ?_⟩
  · simp [findFollowupsDue]
  · intro r hr
    have : r ∈ store.filter (followupDuePred now) :=
      List.take_subset _ _ hr
    exact List.of_mem_filter this
  · intro r
    unfold followupDuePred
    cases hd : r.followup_date with
    | none => simp [hd]
    | some d =>
        simp [hd, Bool.and_eq_true, decide_eq_true_eq]
        tauto
  · intro id ok hmem
    simp only [runScheduledFollowups] at hmem
    rcases List.mem_map.mp hmem with ⟨r, hr, hstep⟩
    refine ⟨r, hr, ?_, ?_⟩
    · have : r ∈ store.filter (followupDuePred now) := List.take_subset _ _ hr
      exact List.of_mem_filter this
    · unfold followupStep at hstep
      cases hres : resolvedId r with
      | none => simp [hres] at hstep
      | some id2 =>
          simp [hres] at hstep
          simp [hres, hstep.1]

/-- Claim C6 witness: the selection facts evaluated on a concrete store. -/
theorem followup_selection_exact_witness :
    followupDuePred 1 sampleDueRecord = true ∧
    (∃ r, r ∈ findFollowupsDue [sampleDueRecord] 1 50 ∧
      followupDuePred 1 r = true ∧ resolvedId r = some "42") := by
  refine ⟨?_, ?_⟩
  · exact (followup_selection_exact [sampleDueRecord] 1 50 (fun _ => true)).2.1
      sampleDueRecord (by decide)
  · exact (followup_selection_exact [sampleDueRecord] 1 50 (fun _ => true)).2.2.2
      "42" true (by decide)

/-- Claim C1: the source of `run_scheduled_followups` contains no store
write at all — nothing in the repository ever sets `followup_completed` to
true, although the data model declares the field and the due-query filters
on it being false.  Evaluated on a store holding one due record with a
working notifier: the first sweep notifies the record once but leaves the
store byte-identical (the record still has `followup_completed = false`),
and an immediately following second sweep notifies the very same record
again instead of the zero further notifications the claim requires. -/
theorem followup_sweep_never_marks_completion :
    (runScheduledFollowups (fun _ => true) [sampleDueRecord] 1).store
        = [sampleDueRecord]
    ∧ sampleDueRecord.followup_completed = false
    ∧ (runScheduledFollowups (fun _ => true) [sampleDueRecord] 1).effects
        = [SweepEffect.notified "42" true]
    ∧ (runScheduledFollowups (fun _ => true)
        (runScheduledFollowups (fun _ => true) [sampleDueRecord] 1).store
        1).effects = [SweepEffect.notified "42" true] := by
  refine ⟨rfl, rfl, ?_, ?_⟩ <;> decide

/-- Claim C4 counterexample: `_find_followups_due` applies no sort, so with
a store holding two due records in the order (date 10, date 5) the selected
batch is not ordered by `followup_date` ascending, and under a cap of 1 the
record served is the one with date 10, not the oldest-due (date 5). -/
theorem followup_batch_not_date_sorted :
    sortedByFollowupDate
        (findFollowupsDue [sampleLaterRecord, sampleOlderRecord] 10 50) = false
    ∧ findFollowupsDue [sampleLaterRecord, sampleOlderRecord] 10 1
        = [sampleLaterRecord] := by
  refine ⟨?_, ?_⟩ <;> decide

/-- Claim C4 as amended: the due records are processed in the store's
natural return order — the batch is a subsequence of the stored collection
(the first `limit` records matching the filter, relative order preserved) —
and no `followup_date` sort is applied. -/
theorem followup_batch_in_store_order (store : List HealthRecord)
    (now limit : Nat) (notifyOk : String → Bool) :
    (findFollowupsDue store now limit).Sublist store
    ∧ (runScheduledFollowups notifyOk store now).effects
        = (findFollowupsDue store now 50).map (followupStep notifyOk) := by
  constructor
  · exact ((store.filter (followupDuePred now)).take_sublist limit).trans
      (store.filter_sublist)
  · rfl

/-- Claim C5 counterexample: the sweep returns `None` (no summary of
dispatched/failed counts exists anywhere in the function), even on a batch
containing a record whose notification fails and a record with no
resolvable identity; both are merely skipped, with no count kept. -/
theorem followup_sweep_returns_no_summary :
    (runScheduledFollowups (fun id => decide (id = "42"))
        [sampleLaterRecord, sampleNoIdRecord, sampleDueRecord] 10).summary
      = none
    ∧ (runScheduledFollowups (fun id => decide (id = "42"))
        [sampleLaterRecord, sampleNoIdRecord, sampleDueRecord] 10).effects
      = [SweepEffect.notified "a" false, SweepEffect.skippedMissingId,
         SweepEffect.notified "42" true] := by
  refine ⟨rfl, ?_⟩
  decide

/-- Claim C5 as amended: a record whose notification fails, and a record
missing a resolvable user identity, are each caught or skipped with a log
and do not abort the sweep — every selected record yields exactly one
handling step regardless of how notifications turn out — but no
dispatched/failed summary is returned and failures are not counted. -/
theorem followup_failures_do_not_abort (store : List HealthRecord) (now : Nat)
    (notify1 notify2 : String → Bool) :
    (runScheduledFollowups notify1 store now).effects.length
        = (findFollowupsDue store now 50).length
    ∧ (runScheduledFollowups notify1 store now).effects.length
        = (runScheduledFollowups notify2 store now).effects.length
    ∧ (runScheduledFollowups notify1 store now).summary = none := by
  refine ⟨?_, ?_, rfl⟩ <;> simp [runScheduledFollowups]

/-! Session store, from src/api/telegram_webhook.py and
src/database/models.py.  Mongo object ids are modelled by a fresh-id counter
in the store; `insert_one` appends the document and bumps the counter. -/

structure UserDoc where
  oid : Nat
  telegram_id : String
  created_at : Nat
  updated_at : Nat
  deriving DecidableEq, Repr

structure SessionDoc where
  oid : Nat
  user_id : Nat
  telegram_id : String
  session_state : String
  current_question : Nat
  symptoms_collected : List String
  started_at : Nat
  last_activity : Nat
  completed_at : Option Nat
  deriving DecidableEq, Repr

structure Store where
  nextId : Nat
  users : List UserDoc
  sessions : List SessionDoc
  deriving DecidableEq, Repr

/-- Filter used by the session `find_one` inside `ensure_active_session`:
`user_id` equals the resolved user and `session_state` differs from the
literal string "COMPLETED" (note the source compares against the uppercase
literal while `SessionState.COMPLETED.value` is the lowercase
"completed"). -/
def activeFilter (uid : Nat) (s : SessionDoc) : Bool :=
  s.user_id == uid && s.session_state != "COMPLETED"

/-- Mongo `find_one` with `sort started_at descending`: among the matching
documents, the one with the largest `started_at` (the earlier stored one on
ties). -/
def latestBy (f : SessionDoc → Nat) : List SessionDoc → Option SessionDoc
  | [] => none
  | s :: rest =>
      match latestBy f rest with
      | none => some s
      | some b => if f s < f b then some b else some s

def findOneActiveSession (sessions : List SessionDoc) (uid : Nat) :
    Option SessionDoc :=
  latestBy (fun s => s.started_at) (sessions.filter (activeFilter uid))

/-- User get-or-create step of `ensure_active_session` (lines 172-182):
look the user up by `telegram_id` and insert a fresh document when absent;
returns the store and the resolved user id. -/
def ensureUserForSession (st : Store) (tid : String) (now : Nat) : Store × Nat :=
  match st.users.find? (fun u => u.telegram_id == tid) with
  | some u => (st, u.oid)
  | none =>
      ({ st with
          nextId := st.nextId + 1
          users := st.users ++
            [{ oid := st.nextId, telegram_id := tid, created_at := now,
               updated_at := now }] },
        st.nextId)

/-- Session document inserted by `ensure_active_session` when no active
session is found (lines 193-206): state "initial", fresh timestamps. -/
def newSessionDoc (oid uid : Nat) (tid : String) (now : Nat) : SessionDoc :=
  { oid := oid
    user_id := uid
    telegram_id := tid
    session_state := "initial"
    current_question := 0
    symptoms_collected := []
    started_at := now
    last_activity := now
    completed_at := none }

/-- Embedding of `ensure_active_session` (src/api/telegram_webhook.py lines
168-214): ensure the user exists, `find_one` the most recent session whose
state differs from "COMPLETED", and only when none is found insert a fresh
"initial" session; the found-or-inserted session is returned.  The source
performs no other write — in particular an existing session's
`last_activity` is left untouched. -/
def ensureActiveSession (st : Store) (tid : String) (now : Nat) :
    Store × SessionDoc :=
  let p := ensureUserForSession st tid now
  match findOneActiveSession p.1.sessions p.2 with
  | some s => (p.1, s)
  | none =>
      ({ p.1 with
          nextId := p.1.nextId + 1
          sessions := p.1.sessions ++ [newSessionDoc p.1.nextId p.2 tid now] },
        newSessionDoc p.1.nextId p.2 tid now)

/-- Number of the user's sessions the code itself would consider active
(its own `session_state != "COMPLETED"` filter). -/
def codeActiveCount (st : Store) (uid : Nat) : Nat :=
  (st.sessions.filter (activeFilter uid)).length

/-- One admissible interleaving of two concurrent `ensure_active_session`
calls for the same (already existing) user: each call is a sequence of
awaited store operations, so both session `find_one`s may complete before
either `insert_one` runs.  Each call inserts exactly when its own find came
back empty, exactly as in the source. -/
def ensureActiveSessionRace (st : Store) (tid : String) (now : Nat) : Store :=
  match st.users.find? (fun u => u.telegram_id == tid) with
  | none => st
  | some u =>
      let d1 := findOneActiveSession st.sessions u.oid
      let d2 := findOneActiveSession st.sessions u.oid
      let st1 :=
        match d1 with
        | none =>
            { st with
                nextId := st.nextId + 1
                sessions := st.sessions ++ [newSessionDoc st.nextId u.oid tid now] }
        | some _ => st
      match d2 with
      | none =>
          { st1 with
              nextId := st1.nextId + 1
              sessions := st1.sessions ++ [newSessionDoc st1.nextId u.oid tid now] }
      | some _ => st1

/-- Store with one registered user and no sessions. -/
def freshUserStore : Store :=
  { nextId := 2
    users := [{ oid := 1, telegram_id := "42", created_at := 0, updated_at := 0 }]
    sessions := [] }

/-- Existing active session with `last_activity` 0, owned by user 1. -/
def existingSession : SessionDoc :=
  { oid := 2
    user_id := 1
    telegram_id := "42"
    session_state := "initial"
    current_question := 0
    symptoms_collected := []
    started_at := 0
    last_activity := 0
    completed_at := none }

/-- Store with one user and one existing active session whose
`last_activity` is 0. -/
def activeSessionStore : Store :=
  { nextId := 3
    users := [{ oid := 1, telegram_id := "42", created_at := 0, updated_at := 0 }]
    sessions := [existingSession] }

/-- Session already in the terminal state, with `completed_at` stamped. -/
def completedSessionSample : SessionDoc :=
  { oid := 4
    user_id := 1
    telegram_id := "42"
    session_state := "completed"
    current_question := 2
    symptoms_collected := ["fever"]
    started_at := 0
    last_activity := 3
    completed_at := some 3 }

/-- Modelled from the spec: `SessionManager.complete` does not exist under
src/ (no operation in the sources ever moves a session to COMPLETED); per
the specification it stamps `completed_at`, persists the terminal state with
an updated `last_activity`, and on an already-COMPLETED session it is a
no-op rather than an error. -/
def completeSession (now : Nat) (s : SessionDoc) : SessionDoc :=
  if s.session_state = "completed" then s
  else { s with session_state := "completed", completed_at := some now,
                last_activity := now }

theorem latestBy_eq_none_iff (f : SessionDoc → Nat) (l : List SessionDoc) :
    latestBy f l = none ↔ l = [] := by
  induction l with
  | nil => simp [latestBy]
  | cons s rest ih =>
      cases h : latestBy f rest with
      | none => simp [latestBy, h]
      | some b =>
          simp only [latestBy, h]
          constructor
          · intro hc
            by_cases hlt : f s < f b <;> simp [hlt] at hc
          · intro hc
            exact absurd hc (List.cons_ne_nil s rest)

theorem findOneActiveSession_none_iff (sessions : List SessionDoc) (uid : Nat) :
    findOneActiveSession sessions uid = none ↔
      sessions.filter (activeFilter uid) = [] := by
  unfold findOneActiveSession
  exact latestBy_eq_none_iff _ _

theorem ensureUserForSession_sessions (st : Store) (tid : String) (now : Nat) :
    (ensureUserForSession st tid now).1.sessions = st.sessions := by
  unfold ensureUserForSession
  cases h : st.users.find? (fun u => u.telegram_id == tid) <;> simp [h]

/-- Claim C3 counterexample: `ensure_active_session` is a plain find-then-
insert with no atomicity and no unique active-session index, so in the
interleaving where both concurrent calls run their session `find_one`
before either `insert_one`, a user with no session ends up with two
non-COMPLETED sessions. -/
theorem race_two_active_sessions :
    codeActiveCount (ensureActiveSessionRace freshUserStore "42" 5) 1 = 2
    ∧ ¬ codeActiveCount (ensureActiveSessionRace freshUserStore "42" 5) 1 ≤ 1 := by
  exact ⟨by decide, by decide⟩

/-- Claim C3 as amended: under sequential invocation the operation inserts a
new session only when no session matching its active filter exists for the
user, so it preserves the at-most-one-active-session invariant; the
guarantee does not extend to concurrent invocation. -/
theorem ensure_active_session_invariant (st : Store) (tid : String)
    (now uid : Nat) (h : codeActiveCount st uid ≤ 1) :
    codeActiveCount (ensureActiveSession st tid now).1 uid ≤ 1
    ∧ (findOneActiveSession st.sessions (ensureUserForSession st tid now).2
          ≠ none →
        (ensureActiveSession st tid now).1.sessions = st.sessions) := by
  have hps := ensureUserForSession_sessions st tid now
  cases hf : findOneActiveSession (ensureUserForSession st tid now).1.sessions
      (ensureUserForSession st tid now).2 with
  | some s =>
      have hres : ensureActiveSession st tid now
          = ((ensureUserForSession st tid now).1, s) := by
        simp [ensureActiveSession, hf]
      constructor
      · rw [hres]
        unfold codeActiveCount
        rw [hps]
        exact h
      · intro _
        rw [hres]
        exact hps
  | none =>
      have hempty : (ensureUserForSession st tid now).1.sessions.filter
          (activeFilter (ensureUserForSession st tid now).2) = [] :=
        (findOneActiveSession_none_iff _ _).mp hf
      have hres : (ensureActiveSession st tid now).1.sessions
          = (ensureUserForSession st tid now).1.sessions ++
              [newSessionDoc (ensureUserForSession st tid now).1.nextId
                (ensureUserForSession st tid now).2 tid now] := by
        simp [ensureActiveSession, hf]
      constructor
      · unfold codeActiveCount
        rw [hres, List.filter_append, List.length_append]
        by_cases huid : (ensureUserForSession st tid now).2 = uid
        · rw [huid] at hempty
          rw [hempty]
          simp [newSessionDoc, activeFilter, huid]
        · have hnew : List.filter (activeFilter uid)
              [newSessionDoc (ensureUserForSession st tid now).1.nextId
                (ensureUserForSession st tid now).2 tid now] = [] := by
            simp [newSessionDoc, activeFilter, huid]
          rw [hnew, hps]
          unfold codeActiveCount at h
          simpa using h
      · intro hne
        rw [hps] at hf
        exact absurd hf hne

/-- Claim C3 witness: the sequential invariant evaluated on the one-user
store. -/
theorem ensure_active_session_invariant_witness :
    codeActiveCount (ensureActiveSession freshUserStore "42" 5).1 1 ≤ 1 :=
  (ensure_active_session_invariant freshUserStore "42" 5 1 (by decide)).1

/-- Claim C7 counterexample: calling `ensure_active_session` at time 7 on a
store whose existing active session has `last_activity = 0` returns that
session and leaves the store byte-identical; the stored `last_activity`
stays 0, so the call did not update it. -/
theorem existing_session_activity_not_updated :
    (ensureActiveSession activeSessionStore "42" 7).1 = activeSessionStore
    ∧ (ensureActiveSession activeSessionStore "42" 7).2.last_activity = 0
    ∧ ¬ (ensureActiveSession activeSessionStore "42" 7).2.last_activity = 7 := by
  exact ⟨by decide, by decide, by decide⟩

/-- Claim C7 as amended: `ensure_active_session` sets `last_activity` (and
`started_at`) only on the session it newly creates; when an active session
already exists the call returns it with the session store unchanged, leaving
the stored `last_activity` untouched. -/
theorem ensure_active_session_activity_policy (st : Store) (tid : String)
    (now : Nat) :
    (∀ s, findOneActiveSession (ensureUserForSession st tid now).1.sessions
        (ensureUserForSession st tid now).2 = some s →
      (ensureActiveSession st tid now).1.sessions = st.sessions
      ∧ (ensureActiveSession st tid now).2 = s)
    ∧ (findOneActiveSession (ensureUserForSession st tid now).1.sessions
        (ensureUserForSession st tid now).2 = none →
      (ensureActiveSession st tid now).2.last_activity = now
      ∧ (ensureActiveSession st tid now).2.started_at = now) := by
  constructor
  · intro s hf
    have hres : ensureActiveSession st tid now
        = ((ensureUserForSession st tid now).1, s) := by
      simp [ensureActiveSession, hf]
    rw [hres]
    exact ⟨ensureUserForSession_sessions st tid now, rfl⟩
  · intro hf
    simp [ensureActiveSession, hf, newSessionDoc]

/-- Claim C7 witness: the found case evaluated on the store holding an
active session, and the creation case on the fresh-user store. -/
theorem ensure_active_session_activity_policy_witness :
    (ensureActiveSession activeSessionStore "42" 7).2 = existingSession
    ∧ (ensureActiveSession freshUserStore "42" 5).2.last_activity = 5 :=
  ⟨((ensure_active_session_activity_policy activeSessionStore "42" 7).1
      existingSession (by decide)).2,
   ((ensure_active_session_activity_policy freshUserStore "42" 5).2
      (by decide)).1⟩

/-- Claim C8: `complete` stamps `completed_at` and is idempotent — applying
it to an already-COMPLETED session is a no-op that leaves every field
unchanged (and, the embedding being total, raises no error). -/
theorem complete_session_idempotent (now1 now2 : Nat) (s : SessionDoc) :
    completeSession now2 (completeSession now1 s) = completeSession now1 s
    ∧ (s.session_state = "completed" → completeSession now1 s = s)
    ∧ (s.session_state ≠ "completed" →
        (completeSession now1 s).completed_at = some now1
        ∧ (completeSession now1 s).session_state = "completed") := by
  by_cases h : s.session_state = "completed" <;> simp [completeSession, h]

/-- Claim C8 witness: completing an already-completed session is the
identity, and completing an active one stamps `completed_at`. -/
theorem complete_session_idempotent_witness :
    completeSession 9 completedSessionSample = completedSessionSample
    ∧ (completeSession 9 existingSession).completed_at = some 9 :=
  ⟨(complete_session_idempotent 9 9 completedSessionSample).2.1 rfl,
   ((complete_session_idempotent 9 9 existingSession).2.2 (by decide)).1⟩

/-! Job scheduler, from src/api/scheduler.py lines 96-144.  The module-level
`scheduler` variable is the explicit `Option SchedulerHandle` state. -/

structure JobSpec where
  id : String
  name : String
  intervalMinutes : Nat
  deriving DecidableEq, Repr

structure SchedulerHandle where
  jobs : List JobSpec
  started : Bool
  deriving DecidableEq, Repr

inductive SchedLog where
  | warnAlreadyRunning
  | infoStarted (surveillanceMinutes : Nat)
  deriving DecidableEq, Repr

/-- Embedding of `start_scheduler`: when the global handle is already set it
logs the warning "Scheduler already running" and returns immediately,
leaving the handle untouched; otherwise it builds a scheduler with the
surveillance job and the follow-up job and starts it. -/
def startScheduler (surveillanceIntervalMinutes : Nat)
    (sch : Option SchedulerHandle) : Option SchedulerHandle × List SchedLog :=
  match sch with
  | some h => (some h, [SchedLog.warnAlreadyRunning])
  | none =>
      (some
        { jobs :=
            [{ id := "surveillance_job", name := "Run surveillance analysis",
               intervalMinutes := surveillanceIntervalMinutes },
             { id := "followup_job", name := "Check scheduled follow-ups",
               intervalMinutes := 15 }]
          started := true },
        [SchedLog.infoStarted surveillanceIntervalMinutes])

/-- Claim C9: calling `start_scheduler` while the scheduler is already
running is a no-op guarded by the `scheduler is not None` check — the
existing handle with its registered jobs is returned unchanged, exactly the
warning is logged, and no second scheduler or duplicate job is created. -/
theorem start_scheduler_reentrant_noop (k : Nat) (h : SchedulerHandle) :
    startScheduler k (some h) = (some h, [SchedLog.warnAlreadyRunning]) := rfl

/-! Surveillance engine.  Claim C2 additionally depends on the body of
`health_crew.run_surveillance_analysis`, which is absent from src/ (only its
caller `run_scheduled_surveillance` in src/api/scheduler.py is present);
that body is modelled from the specification. -/

structure Anomaly where
  symptom : String
  location : String
  count : Nat
  baselineUsed : Nat
  deriving DecidableEq, Repr

structure SurvLog where
  window_start : Nat
  window_end : Nat
  total_reports : Nat
  symptom_counts : List (String × Nat)
  location_counts : List (String × Nat)
  anomalies_detected : List Anomaly
  alert_triggered : Bool
  deriving DecidableEq, Repr

/-- Association-list counter: bump the count of a key, first occurrence
keeps its position. -/
def bump {α : Type} [DecidableEq α] (k : α) :
    List (α × Nat) → List (α × Nat)
  | [] => [(k, 1)]
  | (k2, n) :: rest =>
      if k2 = k then (k2, n + 1) :: rest else (k2, n) :: bump k rest

def countOccurrences {α : Type} [DecidableEq α] (keys : List α) :
    List (α × Nat) :=
  keys.foldl (fun acc k => bump k acc) []

def normSymptom (s : String) : String := s.toLower

/-- Location normalisation: missing locations fall into the "unknown"
bucket. -/
def locationOf (r : HealthRecord) : String := (r.location.getD "unknown").toLower

/-- Spec ordering of the emitted anomaly list: higher raw count first, ties
alphabetically by symptom. -/
def anomalyLE (a b : Anomaly) : Bool :=
  (b.count < a.count) || (a.count == b.count && a.symptom ≤ b.symptom)

def isSignificantAnomaly (a : Anomaly) : Bool :=
  2 * a.baselineUsed ≤ a.count

/-- Modelled from the spec: `run_surveillance_analysis` — the surveillance
engine body the scheduler invokes, absent from src/.  Per §4.2 it queries
the HealthRecords of the trailing window (a failed Store query aborts the
run with an error and writes nothing), aggregates case-normalised symptom
counts, location counts and the total, emits an anomaly for each
symptom-location pair with count at or above the threshold scored against a
rolling baseline floored at 1 (score at least 2.0 is significant, ordered
by higher count then symptom name), triggers the alert flag when any
anomaly is significant, and persists exactly one SurveillanceLog per
completed run. -/
def runSurveillanceAnalysis (threshold : Nat)
    (baseline : String → String → Nat) (windowStart windowEnd : Nat)
    (query : Except String (List HealthRecord)) (logs : List SurvLog) :
    Except String (List SurvLog × Bool) :=
  match query with
  | Except.error e => Except.error e
  | Except.ok found =>
      let records := found.filter
        (fun r => windowStart ≤ r.reported_at && r.reported_at ≤ windowEnd)
      let symKeys := (records.map (fun r => r.symptoms.map normSymptom)).flatten
      let pairKeys := (records.map
        (fun r => r.symptoms.map (fun s => (normSymptom s, locationOf r)))).flatten
      let anomalies := (countOccurrences pairKeys).filterMap (fun kc =>
        if threshold ≤ kc.2 then
          some { symptom := kc.1.1, location := kc.1.2, count := kc.2,
                 baselineUsed := max 1 (baseline kc.1.1 kc.1.2) }
        else none)
      let ordered := anomalies.mergeSort anomalyLE
      let triggered := ordered.any isSignificantAnomaly
      Except.ok
        (logs ++
          [{ window_start := windowStart
             window_end := windowEnd
             total_reports := records.length
             symptom_counts := countOccurrences symKeys
             location_counts := countOccurrences (records.map locationOf)
             anomalies_detected := ordered
             alert_triggered := triggered }],
          triggered)

/-- Embedding of `run_scheduled_surveillance` (src/api/scheduler.py lines
27-48): the engine call sits in a try-except, so a raised error is caught
and logged and the run ends with the log store untouched and no result;
otherwise the run's escalation flag is reported. -/
def runScheduledSurveillance (threshold : Nat)
    (baseline : String → String → Nat) (windowStart windowEnd : Nat)
    (query : Except String (List HealthRecord)) (logs : List SurvLog) :
    List SurvLog × Option Bool :=
  match runSurveillanceAnalysis threshold baseline windowStart windowEnd
      query logs with
  | Except.ok (logs2, escalation) => (logs2, some escalation)
  | Except.error _ => (logs, none)

/-- Claim C2: every surveillance run whose Store query succeeds appends
exactly one SurveillanceLog (whether or not an anomaly was found), while a
run whose Store query fails aborts and leaves the log collection exactly as
it was, so a completed clean run is distinguishable from an absent one. -/
theorem surveillance_one_log_per_run (threshold : Nat)
    (baseline : String → String → Nat) (windowStart windowEnd : Nat)
    (query : Except String (List HealthRecord)) (logs : List SurvLog) :
    (match query with
     | Except.ok _ =>
        (runScheduledSurveillance threshold baseline windowStart windowEnd
          query logs).1.length = logs.length + 1
     | Except.error _ =>
        (runScheduledSurveillance threshold baseline windowStart windowEnd
          query logs).1 = logs) := by
  cases query with
  | ok found => simp [runScheduledSurveillance, runSurveillanceAnalysis]
  | error e => simp [runScheduledSurveillance, runSurveillanceAnalysis]

/-! Crew message processing, from src/crew/health_crew.py lines 326-390.
The LLM crew kickoff is the external fallible call; everything the Python
body computes before it is embedded, and the surrounding try-except makes
the whole function total. -/

/-- Session data dict handed over by the webhook handler. -/
structure SessionData where
  session_id : String
  state : String
  context : List (String × String)
  current_question : Nat
  symptoms_collected : List String
  deriving DecidableEq, Repr

/-- Inputs assembled for `self.crew.kickoff`. -/
structure CrewInputs where
  telegram_id : String
  message : String
  user_name : String
  session_data : String
  conversation_history : String
  language : String
  deriving DecidableEq, Repr

/-- Return dict of `process_user_message`: a `status` plus the payload key
the status selects. -/
structure CrewResult where
  status : String
  result : Option String
  error : Option String
  deriving DecidableEq, Repr

/-- Session formatting of lines 339-342: "No previous session" or the
id-and-state summary. -/
def sessionInfoText (sd : Option SessionData) : String :=
  match sd with
  | none => "No previous session"
  | some d => "Session ID: " ++ d.session_id ++ ", State: " ++ d.state

/-- History formatting of lines 345-348: the last five entries joined by
newlines, or the no-conversation placeholder. -/
def historyText (h : List String) : String :=
  if h.isEmpty then "No previous conversation"
  else String.intercalate "\n" (h.drop (h.length - 5))

/-- User-name extraction of lines 351-357: the session context's
`user_name` entry, defaulting to "User". -/
def userNameOf (sd : Option SessionData) : String :=
  match sd with
  | none => "User"
  | some d =>
      match d.context.find? (fun p => p.1 = "user_name") with
      | some p => p.2
      | none => "User"

/-- Embedding of `HealthCrew.process_user_message`: assemble the crew
inputs, kick off the crew, and wrap the outcome — the entire body runs
inside try-except, so a raised error becomes the error dict instead of
propagating, and a normal result becomes the success dict with the
stringified crew output. -/
def processUserMessage (kickoff : CrewInputs → Except String String)
    (telegram_id message : String) (session_data : Option SessionData)
    (conversation_history : List String) (language : String) : CrewResult :=
  let inputs : CrewInputs :=
    { telegram_id := telegram_id
      message := message
      user_name := userNameOf session_data
      session_data := sessionInfoText session_data
      conversation_history := historyText conversation_history
      language := language }
  match kickoff inputs with
  | Except.ok r => { status := "success", result := some r, error := none }
  | Except.error e => { status := "error", result := none, error := some e }

/-- Claim C10: for every input and every outcome of the external crew
kickoff (including a raised exception), `process_user_message` returns — it
never propagates an error, the embedding being a total function — and its
result carries either status "success" with a string result or status
"error" with a string error, the contract `handle_message` branches on. -/
theorem process_user_message_total_contract
    (kickoff : CrewInputs → Except String String) (telegram_id message : String)
    (session_data : Option SessionData) (conversation_history : List String)
    (language : String) :
    ((processUserMessage kickoff telegram_id message session_data
        conversation_history language).status = "success"
      ∧ ∃ r, (processUserMessage kickoff telegram_id message session_data
          conversation_history language).result = some r)
    ∨ ((processUserMessage kickoff telegram_id message session_data
        conversation_history language).status = "error"
      ∧ ∃ e, (processUserMessage kickoff telegram_id message session_data
          conversation_history language).error = some e) := by
  cases h : kickoff
      { telegram_id := telegram_id
        message := message
        user_name := userNameOf session_data
        session_data := sessionInfoText session_data
        conversation_history := historyText conversation_history
        language := language } with
  | ok r =>
      left
      simp [processUserMessage, h]
  | error e =>
      right
      simp [processUserMessage, h]

end SwasthAI
